import Mathlib

/-!
Verification of `reviewboard/static/rb/js/common/actions/index.ts`, a barrel
module that pulls four symbols (`Action`, `MenuAction`, `ActionView`,
`MenuActionView`) from sibling modules and republishes them as the fields of a
single exported object literal `Actions`.

The shallow embedding below models:
* the four values obtained from the collaborator modules
  (`CollaboratorExports`);
* the exported object literal as an ordered association list, preserving the
  property-declaration order of the source (`Actions`);
* the module surface of `index.ts` (`actionsIndexModule`): exactly one named
  export and no default export;
* module loading, where each collaborator module either resolves to a value or
  fails with an error, resolved in source order (`loadActionsModule`);
* the trivial lifecycle state machine (pending, then ready forever) of the
  loaded module (`moduleStep`, `observeActions`);
* property reads on the loaded object as state-threaded pure lookups
  (`readProp`).

A small type of JavaScript-like values (`JSVal`) serves to instantiate the
generic statements at concrete inputs.
-/

/-- A small universe of JavaScript-like runtime values, used to instantiate
the generic module model at concrete inputs. -/
inductive JSVal where
  | undef
  | null
  | bool (b : Bool)
  | num (n : Int)
  | str (s : String)
  deriving DecidableEq, Repr

/-- The four values that the four collaborator modules export, listed in the
order of the source's import statements: `Action` from `./models/action`,
`MenuAction` from `./models/menuAction`, `ActionView` from
`./views/actionView`, `MenuActionView` from `./views/menuActionView`. -/
structure CollaboratorExports (α : Type) where
  Action : α
  MenuAction : α
  ActionView : α
  MenuActionView : α
  deriving DecidableEq, Repr

/-- The exported object literal

```
export const Actions = \x7b
    Action,
    ActionView,
    MenuAction,
    MenuActionView,
\x7d;
```

modelled as an ordered association list from property names to the imported
values, in the property-declaration order of the source. -/
def Actions (env : CollaboratorExports α) : List (String × α) :=
  [("Action", env.Action),
   ("ActionView", env.ActionView),
   ("MenuAction", env.MenuAction),
   ("MenuActionView", env.MenuActionView)]

/-- The names bound by the four import statements, in source order. -/
def importedNames : List String :=
  ["Action", "MenuAction", "ActionView", "MenuActionView"]

/-- The keys of the `Actions` object, in declaration order. -/
def actionsKeys (env : CollaboratorExports α) : List String :=
  (Actions env).map Prod.fst

/-- The surface of an ES module: its named exports and its optional default
export. -/
structure ESModule (β : Type) where
  namedExports : List (String × β)
  defaultExport : Option β

/-- The module surface of `index.ts`: the single statement
`export const Actions = \x7b ... \x7d` yields exactly one named export,
`Actions`, bound to the object literal, and no default export. -/
def actionsIndexModule (env : CollaboratorExports α) :
    ESModule (List (String × α)) :=
  { namedExports := [("Actions", Actions env)]
    defaultExport := none }

/-- The resolution outcome of each of the four collaborator modules: each
either fails to load with an error of type `ε` or provides its exported
value. Fields are listed in the source's import order. -/
structure ImportedModules (ε α : Type) where
  actionModel : Except ε α
  menuActionModel : Except ε α
  actionView : Except ε α
  menuActionView : Except ε α

/-- Loading `index.ts`: the four collaborator modules are resolved in source
order; the first failure aborts the load with that error, and when all four
resolve the module body runs, producing the `Actions` object. The body itself
has no failure path. -/
def loadActionsModule (m : ImportedModules ε α) :
    Except ε (List (String × α)) :=
  match m.actionModel with
  | .error e => .error e
  | .ok action =>
    match m.menuActionModel with
    | .error e => .error e
    | .ok menuAction =>
      match m.actionView with
      | .error e => .error e
      | .ok actionView =>
        match m.menuActionView with
        | .error e => .error e
        | .ok menuActionView =>
          .ok (Actions ⟨action, menuAction, actionView, menuActionView⟩)

/-- The lifecycle of the module: it is pending until its first load, and ready
(holding its exports) from then on. -/
inductive ModuleLifecycle (α : Type) where
  | pending
  | ready (exports : List (String × α))
  deriving DecidableEq, Repr

/-- One load step of the module: a pending module runs its body and becomes
ready; a ready module is never re-run (the host module system evaluates each
module at most once). No transition mutates the exports of a ready module. -/
def moduleStep (env : CollaboratorExports α) :
    ModuleLifecycle α → ModuleLifecycle α
  | .pending => .ready (Actions env)
  | .ready e => .ready e

/-- Observing the exported object of the module in a given lifecycle state. -/
def observeActions : ModuleLifecycle α → Option (List (String × α))
  | .pending => none
  | .ready e => some e

/-- Reading a property of the loaded object: a pure lookup that returns the
stored value (if the key is present) and leaves the object unchanged. -/
def readProp (o : List (String × α)) (k : String) :
    Option α × List (String × α) :=
  (o.lookup k, o)

/-- A concrete quadruple of distinct marker values, mirroring the spec's test
scenario with four string markers in place of the real classes. -/
def markerEnv : CollaboratorExports JSVal :=
  { Action := .str "ACTION_MARKER"
    MenuAction := .str "MENUACTION_MARKER"
    ActionView := .str "ACTIONVIEW_MARKER"
    MenuActionView := .str "MENUACTIONVIEW_MARKER" }

/-- A second quadruple whose four values are written out pointwise equal to
those of `markerEnv`, used to state determinism across two evaluations. -/
def markerEnvCopy : CollaboratorExports JSVal :=
  { Action := .str "ACTION_MARKER"
    MenuAction := .str "MENUACTION_MARKER"
    ActionView := .str "ACTIONVIEW_MARKER"
    MenuActionView := .str "MENUACTIONVIEW_MARKER" }

/-- A resolution in which all four collaborator modules resolve, each to the
JavaScript value `undefined`. -/
def undefModules : ImportedModules String JSVal :=
  { actionModel := .ok .undef
    menuActionModel := .ok .undef
    actionView := .ok .undef
    menuActionView := .ok .undef }

/-- If the module is observable at all in some lifecycle state, one more load
step leaves the observed exports unchanged. -/
theorem observeActions_moduleStep {α : Type} (env : CollaboratorExports α)
    (s : ModuleLifecycle α) (e : List (String × α))
    (h : observeActions s = some e) :
    observeActions (moduleStep env s) = some e := by
  cases s with
  | pending => simp [observeActions] at h
  | ready e0 => simpa [observeActions, moduleStep] using h

/-- C1: the `Actions` object has exactly the four keys `Action`, `ActionView`,
`MenuAction`, `MenuActionView`, and the set of its keys equals the set of the
four names bound by the import statements. -/
theorem actions_keys_complete {α : Type} (env : CollaboratorExports α) :
    actionsKeys env = ["Action", "ActionView", "MenuAction", "MenuActionView"]
      ∧ ∀ k, k ∈ actionsKeys env ↔ k ∈ importedNames := by
  refine ⟨rfl, fun k => ?_⟩
  simp only [actionsKeys, Actions, importedNames, List.map_cons, List.map_nil,
    List.mem_cons, List.not_mem_nil, or_false]
  tauto

/-- C2: for each of the four keys, looking the key up in `Actions` yields
exactly the value the corresponding collaborator module exported, unchanged. -/
theorem actions_identity {α : Type} (env : CollaboratorExports α) :
    (Actions env).lookup "Action" = some env.Action
      ∧ (Actions env).lookup "ActionView" = some env.ActionView
      ∧ (Actions env).lookup "MenuAction" = some env.MenuAction
      ∧ (Actions env).lookup "MenuActionView" = some env.MenuActionView :=
  ⟨rfl, rfl, rfl, rfl⟩

/-- C3: the module surface of `index.ts` is exactly one named export,
`Actions`, bound to the object literal holding the four imported values
unchanged, and there is no default export and no other named export. -/
theorem actions_module_surface {α : Type} (env : CollaboratorExports α) :
    (actionsIndexModule env).namedExports.map Prod.fst = ["Actions"]
      ∧ (actionsIndexModule env).defaultExport = none
      ∧ (actionsIndexModule env).namedExports.lookup "Actions" =
          some [("Action", env.Action), ("ActionView", env.ActionView),
                ("MenuAction", env.MenuAction),
                ("MenuActionView", env.MenuActionView)] :=
  ⟨rfl, rfl, rfl⟩

/-- C4: loading `index.ts` fails with error `e` exactly when one of the four
collaborator modules is the first (in source order) to fail, and it fails with
that very error `e` — the failure is propagated unchanged, and the module has
no failure mode of its own. -/
theorem load_fails_iff {ε α : Type} (m : ImportedModules ε α) (e : ε) :
    loadActionsModule m = .error e ↔
      (m.actionModel = .error e
        ∨ ((∃ a, m.actionModel = .ok a) ∧ m.menuActionModel = .error e)
        ∨ ((∃ a, m.actionModel = .ok a) ∧ (∃ b, m.menuActionModel = .ok b)
            ∧ m.actionView = .error e)
        ∨ ((∃ a, m.actionModel = .ok a) ∧ (∃ b, m.menuActionModel = .ok b)
            ∧ (∃ c, m.actionView = .ok c) ∧ m.menuActionView = .error e)) := by
  obtain ⟨ma, mb, mc, md⟩ := m
  cases ma <;> cases mb <;> cases mc <;> cases md <;>
    simp [loadActionsModule]

/-- C5: reading a property of the loaded `Actions` object leaves the object
unchanged, and a second read of the same key on the resulting state returns
the same value as the first read. -/
theorem actions_read_stable {α : Type} (env : CollaboratorExports α)
    (k : String) :
    (readProp (Actions env) k).2 = Actions env
      ∧ (readProp ((readProp (Actions env) k).2) k).1 =
          (readProp (Actions env) k).1 :=
  ⟨rfl, rfl⟩

/-- C6: when the collaborator values are constructors, instantiating through
`Actions.Action` or `Actions.MenuAction` on any argument gives exactly the
result of instantiating the collaborator's export directly. -/
theorem actions_construct_transparent {β γ : Type}
    (env : CollaboratorExports (β → γ)) (arg : β) :
    ((Actions env).lookup "Action").map (fun ctor => ctor arg) =
        some (env.Action arg)
      ∧ ((Actions env).lookup "MenuAction").map (fun ctor => ctor arg) =
          some (env.MenuAction arg) :=
  ⟨rfl, rfl⟩

/-- C7: after the module's first load step, any number of further steps leaves
the observed exports exactly the four key/value pairs established at load
time — the lifecycle offers no transition that changes them. -/
theorem actions_immutable_after_load {α : Type} (env : CollaboratorExports α)
    (n : Nat) :
    observeActions ((moduleStep env)^[n] (moduleStep env .pending)) =
      some (Actions env) := by
  induction n with
  | zero => rfl
  | succ n ih =>
    rw [Function.iterate_succ_apply']
    exact observeActions_moduleStep env _ _ ih

/-- C8: the keys of `Actions` are declared in the order `Action`,
`ActionView`, `MenuAction`, `MenuActionView`, which is not the order in which
the import statements bind the four names. -/
theorem actions_key_order {α : Type} (env : CollaboratorExports α) :
    actionsKeys env = ["Action", "ActionView", "MenuAction", "MenuActionView"]
      ∧ importedNames = ["Action", "MenuAction", "ActionView", "MenuActionView"]
      ∧ actionsKeys env ≠ importedNames := by
  refine ⟨rfl, rfl, ?_⟩
  show ["Action", "ActionView", "MenuAction", "MenuActionView"] ≠ importedNames
  decide

/-- C9: the `Actions` object is determined by the four imported values alone:
two evaluations whose collaborator modules export pairwise-equal values
produce pointwise-equal objects. -/
theorem actions_deterministic {α : Type} (env1 env2 : CollaboratorExports α)
    (hA : env1.Action = env2.Action)
    (hMA : env1.MenuAction = env2.MenuAction)
    (hAV : env1.ActionView = env2.ActionView)
    (hMAV : env1.MenuActionView = env2.MenuActionView) :
    Actions env1 = Actions env2 := by
  simp [Actions, hA, hMA, hAV, hMAV]

/-- Witness for C9: two evaluations over the marker quadruple, written out
twice, yield equal objects. -/
theorem actions_deterministic_witness : Actions markerEnv = Actions markerEnvCopy :=
  actions_deterministic markerEnv markerEnvCopy rfl rfl rfl rfl

/-- C10: whenever all four collaborator modules resolve to values — any
values, `undefined` included — the module body completes without failing and
produces the `Actions` object over those values. -/
theorem load_total {ε α : Type} (m : ImportedModules ε α) (a b c d : α)
    (h1 : m.actionModel = .ok a) (h2 : m.menuActionModel = .ok b)
    (h3 : m.actionView = .ok c) (h4 : m.menuActionView = .ok d) :
    loadActionsModule m = .ok (Actions ⟨a, b, c, d⟩) := by
  simp [loadActionsModule, h1, h2, h3, h4]

/-- Witness for C10: with all four collaborators resolving to `undefined`,
the load succeeds. -/
theorem load_total_witness :
    loadActionsModule undefModules =
      .ok (Actions ⟨.undef, .undef, .undef, .undef⟩) :=
  load_total undefModules .undef .undef .undef .undef rfl rfl rfl rfl
